import Mathlib

/-!
# Verification of the GameTCPSniffer decoding pipeline

Shallow embedding of `src/servers.py` and `src/decoder.py`:

* the varint decoder `parse_varints_from_hex`;
* the decoder-loop body (`decoder` inside `get_decoder`), including the
  length check, the magic-byte search, the envelope parse slice, the
  allowlist/blocklist filtering and the downstream record;
* the type resolver `import_proto` / `compile_proto` with the module
  cache provided by Python's `import_module` (`sys.modules`);
* the packet classifier `packet_handler` from `generate_packet_handler`
  and the bounded, non-blocking queues it publishes into.

Bytes are modelled as `Nat` (values of Python `bytes` elements);
buffers as `List Nat`.  External collaborators (the protobuf runtime,
`protoc`, the display) are oracle parameters.  Python exceptions are
modelled by explicit error results; an exception caught at the decoder
loop boundary appears as a recorded error message, an exception that no
handler catches appears as an `uncaught` field.
-/

namespace GameTCPSniffer

/-! ## Varint decoder (`decoder.py`, `parse_varints_from_hex`) -/

/-- One step of the loop in `parse_varints_from_hex`: read a byte,
or its low 7 bits into the accumulator at the current shift, advance;
stop after the first byte whose high bit (0x80) is clear.  Returns the
accumulated value and the number of bytes consumed. -/
def parseVarintAux : List Nat → Nat → Nat → Nat → Nat × Nat
  | [], result, _, consumed => (result, consumed)
  | b :: rest, result, shift, consumed =>
    let result := result ||| ((b &&& 0x7F) <<< shift)
    if b &&& 0x80 == 0 then (result, consumed + 1)
    else parseVarintAux rest result (shift + 7) (consumed + 1)

/-- `parse_varints_from_hex`: parse a varint from the front of a byte
buffer; returns `(varint_value, bytes_consumed, varint_bytes)`.  The
Python loop runs while `position < len(bytes_msg)` and never raises. -/
def parse_varints_from_hex (bytes_msg : List Nat) : Nat × Nat × List Nat :=
  let (r, c) := parseVarintAux bytes_msg 0 0 0
  (r, c, bytes_msg.take c)

/-- Specification-side accumulator: the value obtained by oring each
byte's low 7 bits at shifts `s, s+7, s+14, …`. -/
def accumLow7 : List Nat → Nat → Nat
  | [], _ => 0
  | b :: rest, shift => ((b &&& 0x7F) <<< shift) ||| accumLow7 rest (shift + 7)

/-- Modelled from the spec: the varint encoder (7-bit groups, low group
first, high bit set on every byte except the last).  The repository has
no encoder; §8 of the spec demands the round-trip property against this
reference encoding.  Fuel-indexed so that concrete values compute. -/
def encodeVarintAux : Nat → Nat → List Nat
  | 0, n => [n]
  | fuel + 1, n =>
    if n < 128 then [n] else (n % 128 + 128) :: encodeVarintAux fuel (n / 128)

/-- Modelled from the spec: wrapper fixing enough fuel (`n / 128 < n`
whenever `128 ≤ n`, so `n` steps always suffice). -/
def encode_varint (n : Nat) : List Nat := encodeVarintAux (n + 1) n

/-! ## Python bytes/str primitives used by the sources -/

/-- Python containment `needle in hay` on sequences: `needle` occurs as
a contiguous subsequence of `hay` (the empty needle always occurs). -/
def subOf [DecidableEq α] : List α → List α → Bool
  | needle, [] => needle.isEmpty
  | needle, a :: t => needle.isPrefixOf (a :: t) || subOf needle t

/-- Python `hay.index(needle)` domain: the index of the first occurrence
of `needle` as a contiguous subsequence of `hay`, if any. -/
def firstOccur [DecidableEq α] (needle : List α) : List α → Option Nat
  | [] => if needle.isEmpty then some 0 else none
  | a :: t =>
    if needle.isPrefixOf (a :: t) then some 0
    else (firstOccur needle t).map (· + 1)

/-- Python slice `l[s:]`: a negative start counts from the end of the
list and is clamped at 0; a start beyond the end yields `[]`. -/
def pySliceFrom (l : List α) (s : Int) : List α :=
  if s < 0 then l.drop ((l.length : Int) + s).toNat else l.drop s.toNat

/-- Python substring test `needle in hay` on `str`. -/
def strSub (needle hay : String) : Bool := subOf needle.data hay.data

/-! ## Data model (carriers from `src/utils.py`, used by both sources) -/

/-- Modelled from the spec: `CommunicationFlag` from the missing
`src/utils.py`; §3/§6 fix the classification enumeration {ACK, OTHER},
and `servers.py` uses exactly the constructors `ACK` and `OTHER`. -/
inductive CommunicationFlag
  | ACK
  | OTHER
  deriving DecidableEq, Repr

/-- The scapy packet fields the sources read: presence of the TCP and
IP layers, IP addresses, TCP payload bytes, and TCP ports. -/
structure Packet where
  hasTCP : Bool
  hasIP : Bool
  src : String
  dst : String
  payload : List Nat
  sport : Nat
  dport : Nat
  deriving DecidableEq, Repr

/-- Modelled from the spec: `Message` (the RawSegment of §3) from the
missing `src/utils.py`, as constructed by `packet_handler`: source IP,
destination IP, the packet, and the classification flag. -/
structure Message where
  src_ip : String
  dst_ip : String
  pkt : Packet
  flag : CommunicationFlag
  deriving DecidableEq, Repr

/-- `TCP_Message` (the DecodedRecord of §3/§6) as constructed by
`decoder` in `decoder.py`. -/
structure TCP_Message where
  client_ip : String
  server_ip : String
  proto : String
  size : Nat
  nb_packet : Nat
  data : String
  deriving DecidableEq, Repr

/-! ## Bounded queues (`queue.Queue`) and the producer-side publish -/

/-- The Python exception classes involved in the queue publishes.
`queue.Full` (raised by `queue.Queue.put_nowait`) and
`asyncio.QueueFull` (the class `packet_handler` catches) are distinct,
unrelated exception classes in the Python standard library. -/
inductive PyExc
  | queueFull
  | asyncioQueueFull
  deriving DecidableEq, Repr

/-- A `queue.Queue(maxsize)`: FIFO contents plus the bound.  Python
treats `maxsize <= 0` as an infinite queue; modelled by `maxsize = 0`. -/
structure PyQueue (α : Type) where
  maxsize : Nat
  items : List α
  deriving DecidableEq, Repr

/-- `queue.Queue.full()`: the bound is positive and reached. -/
def PyQueue.isFull (q : PyQueue α) : Bool :=
  decide (q.maxsize ≠ 0 ∧ q.maxsize ≤ q.items.length)

/-- `queue.Queue.put_nowait(x)`: enqueue at the tail, or raise
`queue.Full` when the queue is full; never blocks. -/
def PyQueue.putNowait (q : PyQueue α) (x : α) : Except PyExc (PyQueue α) :=
  if q.isFull then .error .queueFull
  else .ok { q with items := q.items ++ [x] }

/-! ## Packet classifier (`servers.py`, `generate_packet_handler`) -/

/-- Observable outcome of one `packet_handler` call: both queues after
the call, the number of `Database queue full !` warnings printed, and
the exception escaping the handler, if any. -/
structure HandlerResult where
  stateQ : PyQueue Message
  decoderQ : PyQueue Message
  warnings : Nat
  uncaught : Option PyExc
  deriving DecidableEq, Repr

/-- The `try: q.put_nowait(msg) except asyncio.QueueFull: print(...)`
block in `packet_handler`: `put_nowait` raises `queue.Full`, but the
handler catches only the unrelated class `asyncio.QueueFull`, so on a
full queue the item is dropped, no warning prints, and `queue.Full`
escapes the handler.  Returns (queue after, warnings printed, escaping
exception). -/
def tryPutCatchAsyncioFull (q : PyQueue Message) (msg : Message) :
    PyQueue Message × Nat × Option PyExc :=
  match q.putNowait msg with
  | .ok q' => (q', 0, none)
  | .error e =>
    if e = .asyncioQueueFull then (q, 1, none) else (q, 0, some e)

/-- `packet_handler(pkt, servers, filter_payload_len)` closed over the
two queues by `generate_packet_handler`.  `is_client` is the predicate
from the missing `src/utils.py`, passed as an oracle. -/
def packet_handler (is_client : String → Bool)
    (stateQ decoderQ : PyQueue Message)
    (pkt : Packet) (servers : List String) (filter_payload_len : Int) :
    HandlerResult :=
  if pkt.hasTCP && pkt.hasIP then
    let src_ip := pkt.src
    let dst_ip := pkt.dst
    if servers.contains src_ip || servers.contains dst_ip then
      let payload := pkt.payload
      if filter_payload_len = -1 then
        let msg : Message := ⟨src_ip, dst_ip, pkt, .OTHER⟩
        let (q', w, u) := tryPutCatchAsyncioFull decoderQ msg
        { stateQ := stateQ, decoderQ := q', warnings := w, uncaught := u }
      else
        let msg : Message :=
          if filter_payload_len > 0 ∧ (payload.length : Int) = filter_payload_len
              ∧ ¬ is_client src_ip then
            ⟨src_ip, dst_ip, pkt, .ACK⟩
          else ⟨src_ip, dst_ip, pkt, .OTHER⟩
        let (q', w, u) := tryPutCatchAsyncioFull stateQ msg
        { stateQ := q', decoderQ := decoderQ, warnings := w, uncaught := u }
    else { stateQ := stateQ, decoderQ := decoderQ, warnings := 0, uncaught := none }
  else { stateQ := stateQ, decoderQ := decoderQ, warnings := 0, uncaught := none }

/-! ## Type resolver (`decoder.py`, `compile_proto` / `import_proto`) -/

/-- The process state the resolver reads and writes: `sys.modules`
(module names already imported, maintained by `import_module`), the
compiled `_pb2` artifacts present on disk (keyed by proto short name),
and the compiler collaborator's exit status per name. -/
structure PyEnv where
  modules : List String
  artifacts : List String
  protocOk : String → Bool

/-- `import_module(f"{proto_name}_pb2")`: serve from `sys.modules` when
present; else load the compiled artifact, registering the module; else
raise `ImportError("No module named '<stem>_pb2'")`, carried here as
the missing stem. -/
def importMod (env : PyEnv) (name : String) : Except String PyEnv :=
  if env.modules.contains (name ++ "_pb2") then .ok env
  else if env.artifacts.contains name then
    .ok { env with modules := (name ++ "_pb2") :: env.modules }
  else .error name

/-- `compile_proto`: invoke `protoc`; a non-zero exit status raises
`RuntimeError("Protoc failed: ...")`.  The §6 collaborator contract —
zero exit status means the loadable artifact was written — is built in:
on success the artifact for `name` exists. -/
def compile_proto (env : PyEnv) (name : String) : Except String PyEnv :=
  if env.protocOk name then .ok { env with artifacts := name :: env.artifacts }
  else .error ("Protoc failed: " ++ name)

/-- Python word character class `\w`. -/
def isWordChar (c : Char) : Bool := c.isAlphanum || c = '_'

/-- `re.search(r"No module named '(\w{3})_pb2'", e.msg)` applied to the
message `No module named '<stem>_pb2'`: the pattern's literal text pins
the only candidate position, so the group matches exactly when the stem
is three word characters, in which case it captures the stem itself. -/
def regexExtract (stem : String) : Option String :=
  if stem.length = 3 && stem.data.all isWordChar then some stem else none

/-- `import_proto`: the `while True` loop of try-import, regex-match,
compile-on-miss, retry.  Fuel bounds the unbounded loop; the result
pairs the outcome (final env on success, or the propagated exception
message) with the number of `compile_proto` invocations; `none` means
the fuel ran out before the loop exited. -/
def import_proto : Nat → PyEnv → String → Option (Except String PyEnv × Nat)
  | 0, _, _ => none
  | fuel + 1, env, proto_name =>
    match importMod env proto_name with
    | .ok env' => some (.ok env', 0)
    | .error stem =>
      match regexExtract stem with
      | some proto_file =>
        match compile_proto env proto_file with
        | .ok env' =>
          match import_proto fuel env' proto_name with
          | some (out, k) => some (out, k + 1)
          | none => none
        | .error e => some (.error e, 1)
      | none =>
        some (.error ("Cant parse error message to automatically compile protobuf files. Error was: No module named " ++ stem), 0)

/-! ## Decoder loop body (`decoder.py`, `decoder` in `get_decoder`) -/

/-- The `magic_number_index` computation in `decoder`: `-1` when the
marker is absent, else `payload.index(magic_bytes)`. -/
def magicIndex (magic_bytes payload : List Nat) : Int :=
  match firstOccur magic_bytes payload with
  | some i => (i : Int)
  | none => -1

/-- A parsed `google.protobuf.any_pb2.Any`: type URL and value bytes. -/
structure AnyMsg where
  type_url : String
  value : List Nat

/-- The external protobuf runtime: `Any.ParseFromString` on a byte
slice, and the resolved class's `ParseFromString` composed with
`MessageToJson` (proto short name and `any.value` bytes to a rendered
JSON string).  Errors carry the raised exception's message. -/
structure Collab where
  parseAny : List Nat → Except String AnyMsg
  renderProto : String → List Nat → Except String String

/-- Observable outcome of one iteration of the decoder loop on a
dequeued message: the record published to `queue_com` (if any), the
argument passed to `Any.ParseFromString` (if that call is reached),
whether the verbose per-type `Proto: ...` line printed, and the error
message caught at the loop boundary (if any). -/
structure StepOut where
  published : Option TCP_Message
  anyParseArg : Option (List Nat)
  protoLogged : Bool
  errorMsg : Option String

/-- One iteration of `decoder` on a dequeued `msg`: varint parse and
length check, magic-byte search (`-1` when absent), envelope slice
`payload[m-2:]`, `Any` parse, verbose logging gated by the blacklist,
allowlist filtering with the first matching entry bound by the walrus,
type resolution via `import_proto`, decode and publish.  All
exceptions are caught at the loop boundary and recorded in
`errorMsg`. -/
def decodeStep (collab : Collab) (env : PyEnv) (magic_bytes : List Nat)
    (protos_filter blacklist : List String) (verbose : Bool)
    (msg : Message) : StepOut × PyEnv :=
  let payload := msg.pkt.payload
  let pv := parse_varints_from_hex payload
  let value_varint := pv.1
  let bytes_consumed := pv.2.1
  if value_varint + bytes_consumed > payload.length then
    ({ published := none, anyParseArg := none, protoLogged := false,
       errorMsg := some ("Packet size is " ++ toString payload.length ++ " but "
         ++ toString (value_varint + bytes_consumed) ++ " was expected") }, env)
  else
    let slice := pySliceFrom payload (magicIndex magic_bytes payload - 2)
    match collab.parseAny slice with
    | .error e =>
      ({ published := none, anyParseArg := some slice, protoLogged := false,
         errorMsg := some e }, env)
    | .ok any_msg =>
      let logged := verbose && !(blacklist.any (fun b => strSub b any_msg.type_url))
        && any_msg.type_url != ""
      match (if protos_filter = [""] then none
             else protos_filter.find? (fun p => strSub p any_msg.type_url)) with
      | none =>
        ({ published := none, anyParseArg := some slice, protoLogged := logged,
           errorMsg := none }, env)
      | some proto_filter =>
        match import_proto 2 env proto_filter with
        | none =>
          ({ published := none, anyParseArg := some slice, protoLogged := logged,
             errorMsg := some "import fuel exhausted" }, env)
        | some (.error e, _) =>
          ({ published := none, anyParseArg := some slice, protoLogged := logged,
             errorMsg := some e }, env)
        | some (.ok env', _) =>
          match collab.renderProto proto_filter any_msg.value with
          | .error e =>
            ({ published := none, anyParseArg := some slice, protoLogged := logged,
               errorMsg := some e }, env')
          | .ok json =>
            ({ published := some {
                 client_ip := msg.dst_ip ++ ":" ++ toString msg.pkt.sport,
                 server_ip := msg.src_ip ++ ":" ++ toString msg.pkt.dport,
                 proto := proto_filter,
                 size := value_varint + bytes_consumed,
                 nb_packet := 1,
                 data := json },
               anyParseArg := some slice, protoLogged := logged,
               errorMsg := none }, env')

/-! ## Concrete fixtures used by witnesses and counterexamples -/

/-- Process state with nothing imported or compiled and a compiler that
succeeds on every name. -/
def envEmpty : PyEnv := { modules := [], artifacts := [], protocOk := fun _ => true }

/-- Process state in which the `Foo` schema module is already
imported. -/
def envFoo : PyEnv := { modules := ["Foo_pb2"], artifacts := [], protocOk := fun _ => true }

/-- Protobuf runtime whose `Any` parse always fails. -/
def collabErr : Collab :=
  { parseAny := fun _ => .error "any parse failed",
    renderProto := fun _ _ => .error "decode failed" }

/-- Protobuf runtime that reports type URL `type.googleapis.com/Foo`
for every slice and renders every payload as the string `json`. -/
def collabFoo : Collab :=
  { parseAny := fun _ => .ok { type_url := "type.googleapis.com/Foo", value := [] },
    renderProto := fun _ _ => .ok "json" }

/-- A TCP/IP packet with a 1-byte payload `[5]`: the varint parses to
value 5 over 1 byte, so the declared length 6 exceeds the payload. -/
def pktShort : Packet :=
  { hasTCP := true, hasIP := true, src := "10.0.0.1", dst := "10.0.0.2",
    payload := [5], sport := 4000, dport := 5000 }

/-- The `Message` wrapping `pktShort`. -/
def msgShort : Message :=
  { src_ip := "10.0.0.1", dst_ip := "10.0.0.2", pkt := pktShort, flag := .OTHER }

/-- A TCP/IP packet whose payload `[1, 2, 3, 4, 5]` passes the length
check (varint value 1 + 1 byte consumed ≤ 5) and contains no marker
bytes `[9, 9]`. -/
def pktPlain : Packet :=
  { hasTCP := true, hasIP := true, src := "10.0.0.1", dst := "10.0.0.2",
    payload := [1, 2, 3, 4, 5], sport := 4000, dport := 5000 }

/-- The `Message` wrapping `pktPlain`. -/
def msgPlain : Message :=
  { src_ip := "10.0.0.1", dst_ip := "10.0.0.2", pkt := pktPlain, flag := .OTHER }

/-- An empty state-machine queue of capacity 2. -/
def qState2 : PyQueue Message := { maxsize := 2, items := [] }

/-- A decoder queue of capacity 1 that is already full. -/
def qFull1 : PyQueue Message := { maxsize := 1, items := [msgShort] }

/-- The process state `import_proto` produces from `envEmpty` when
resolving `abc`: the artifact compiled and the module imported. -/
def envAbc : PyEnv :=
  { modules := ["abc_pb2"], artifacts := ["abc"], protocOk := fun _ => true }

/-- The record `decodeStep` publishes for `msgPlain` under `collabFoo`
with allowlist `["Foo"]`: size 2 = varint value 1 + 1 byte consumed. -/
def recPlain : TCP_Message :=
  { client_ip := "10.0.0.2:4000", server_ip := "10.0.0.1:5000", proto := "Foo",
    size := 2, nb_packet := 1, data := "json" }

/-- The varint loop on a buffer made of continuation bytes `conts`
(high bit set), a terminator `t` (high bit clear) and arbitrary trailing
bytes: it ors the low 7 bits of each consumed byte at shifts
`s, s+7, …` into the accumulator and consumes exactly
`conts.length + 1` bytes. -/
theorem parseVarintAux_spec : ∀ (conts : List Nat) (t : Nat) (rest : List Nat)
    (acc shift consumed : Nat),
    (∀ b ∈ conts, b &&& 0x80 ≠ 0) → t &&& 0x80 = 0 →
    parseVarintAux (conts ++ t :: rest) acc shift consumed =
      (acc ||| accumLow7 (conts ++ [t]) shift, consumed + (conts.length + 1))
  | [], t, rest, acc, shift, consumed, _, ht => by
      simp [parseVarintAux, accumLow7, ht]
  | b :: cs, t, rest, acc, shift, consumed, hc, ht => by
      have hb : b &&& 0x80 ≠ 0 := hc b (List.mem_cons_self ..)
      have ih := parseVarintAux_spec cs t rest
        (acc ||| ((b &&& 0x7F) <<< shift)) (shift + 7) (consumed + 1)
        (fun x hx => hc x (List.mem_cons_of_mem _ hx)) ht
      simp [parseVarintAux, hb, accumLow7, ih, Nat.or_assoc]
      omega

/-- `parse_varints_from_hex` on a buffer of continuation bytes, a
terminator and a tail: value, bytes consumed and raw bytes. -/
theorem parse_varints_spec (conts : List Nat) (t : Nat) (rest : List Nat)
    (hc : ∀ b ∈ conts, b &&& 0x80 ≠ 0) (ht : t &&& 0x80 = 0) :
    parse_varints_from_hex (conts ++ t :: rest) =
      (accumLow7 (conts ++ [t]) 0, conts.length + 1, conts ++ [t]) := by
  have h := parseVarintAux_spec conts t rest 0 0 0 hc ht
  have htake : (conts ++ t :: rest).take (conts.length + 1) = conts ++ [t] := by
    have : conts ++ t :: rest = (conts ++ [t]) ++ rest := by simp
    rw [this]
    have hlen : (conts ++ [t]).length = conts.length + 1 := by simp
    rw [← hlen, List.take_left]
  simp [parse_varints_from_hex, h, htake]

example : parse_varints_from_hex [0x00] = (0, 1, [0x00]) := by decide
example : parse_varints_from_hex [0x7F] = (127, 1, [0x7F]) := by decide
example : parse_varints_from_hex [0x80, 0x01] = (128, 2, [0x80, 0x01]) := by decide
example : encode_varint 16384 = [0x80, 0x80, 0x01] := by decide
example : parse_varints_from_hex (encode_varint (2 ^ 35)) =
    (2 ^ 35, 6, encode_varint (2 ^ 35)) := by decide

/-- A successful `importMod` leaves the requested module registered in
`sys.modules`. -/
theorem importMod_ok_mem {env env' : PyEnv} {name : String}
    (h : importMod env name = .ok env') :
    env'.modules.contains (name ++ "_pb2") = true := by
  unfold importMod at h
  split at h
  · cases h
    assumption
  · split at h
    · cases h
      simp
    · exact Except.noConfusion h

/-- A cached module is served unchanged with no compile. -/
theorem import_proto_cached {env : PyEnv} {name : String}
    (h : env.modules.contains (name ++ "_pb2") = true) :
    import_proto 2 env name = some (.ok env, 0) := by
  show import_proto (1 + 1) env name = some (.ok env, 0)
  unfold import_proto importMod
  rw [if_pos h]

/-- `importMod` fails only with the requested stem, and only when
neither the module nor the artifact is present. -/
theorem importMod_error_eq {env : PyEnv} {name stem : String}
    (h : importMod env name = .error stem) :
    stem = name ∧ env.modules.contains (name ++ "_pb2") = false
      ∧ env.artifacts.contains name = false := by
  unfold importMod at h
  split at h
  · exact Except.noConfusion h
  · rename_i hm
    split at h
    · exact Except.noConfusion h
    · rename_i ha
      cases h
      exact ⟨rfl, by simpa using hm, by simpa using ha⟩

/-- The regex group, when it matches, captures the stem itself. -/
theorem regexExtract_eq {stem pf : String} (h : regexExtract stem = some pf) :
    pf = stem := by
  unfold regexExtract at h
  split at h
  · cases h
    rfl
  · exact Option.noConfusion h

/-- A successful `compile_proto` adds exactly the requested artifact. -/
theorem compile_proto_ok {env env1 : PyEnv} {name : String}
    (h : compile_proto env name = .ok env1) :
    env1 = { env with artifacts := name :: env.artifacts } := by
  unfold compile_proto at h
  split at h
  · cases h
    rfl
  · exact Except.noConfusion h

example :
    (decodeStep collabFoo envFoo [9, 9] ["Foo"] [] false msgPlain).1.published =
      some recPlain := by decide

example :
    (decodeStep collabFoo envFoo [9, 9] ["Foo"] [] false msgPlain).1.anyParseArg =
      some [3, 4, 5] := by decide

/-- Whenever the length check passes, the decoder loop hands the
envelope slice `payload[magic_number_index - 2:]` to
`Any.ParseFromString`, on every control path. -/
theorem decodeStep_anyParseArg (collab : Collab) (env : PyEnv)
    (magic : List Nat) (pf bl : List String) (vb : Bool) (msg : Message)
    (hlen : ¬ (parse_varints_from_hex msg.pkt.payload).1
        + (parse_varints_from_hex msg.pkt.payload).2.1 > msg.pkt.payload.length) :
    (decodeStep collab env magic pf bl vb msg).1.anyParseArg =
      some (pySliceFrom msg.pkt.payload (magicIndex magic msg.pkt.payload - 2)) := by
  simp only [decodeStep]
  rw [if_neg hlen]
  cases collab.parseAny
      (pySliceFrom msg.pkt.payload (magicIndex magic msg.pkt.payload - 2)) with
  | error e => rfl
  | ok a =>
    dsimp only
    cases (if pf = [""] then none else pf.find? fun p => strSub p a.type_url) with
    | none => rfl
    | some p =>
      dsimp only
      cases import_proto 2 env p with
      | none => rfl
      | some r =>
        obtain ⟨out, k⟩ := r
        cases out with
        | error e => rfl
        | ok env' =>
          dsimp only
          cases collab.renderProto p a.value with
          | error e => rfl
          | ok json => rfl

/-! ## Claim theorems -/

/-- C7: on every byte buffer the varint decoder starts at offset 0,
accumulates each byte's low 7 bits into the result at bit-shifts
0, 7, 14, … and stops at the first byte whose high bit is clear; the
single byte 0x00 decodes to value 0 consuming 1 byte, 0x7F to 127
consuming 1 byte, 0x80 0x01 to 128 consuming 2 bytes; and encoding any
of 0, 1, 127, 128, 16384, 2^35 then decoding reproduces the value and
the byte count. -/
theorem C7_varint_decode_correct
    (conts : List Nat) (t : Nat) (rest : List Nat)
    (hc : ∀ b ∈ conts, b &&& 0x80 ≠ 0) (ht : t &&& 0x80 = 0) :
    parse_varints_from_hex (conts ++ t :: rest) =
      (accumLow7 (conts ++ [t]) 0, conts.length + 1, conts ++ [t])
    ∧ parse_varints_from_hex [0x00] = (0, 1, [0x00])
    ∧ parse_varints_from_hex [0x7F] = (127, 1, [0x7F])
    ∧ parse_varints_from_hex [0x80, 0x01] = (128, 2, [0x80, 0x01])
    ∧ ∀ v ∈ [0, 1, 127, 128, 16384, 2 ^ 35],
        parse_varints_from_hex (encode_varint v) =
          (v, (encode_varint v).length, encode_varint v) :=
  ⟨parse_varints_spec conts t rest hc ht, by decide, by decide, by decide, by decide⟩

/-- Witness for C7 at `conts = [0x80]`, `t = 0x01`, `rest = []`. -/
theorem C7_varint_decode_correct_witness :
    parse_varints_from_hex ([0x80] ++ 0x01 :: []) =
      (accumLow7 ([0x80] ++ [0x01]) 0, ([0x80] : List Nat).length + 1,
        [0x80] ++ [0x01]) :=
  (C7_varint_decode_correct [0x80] 0x01 [] (by decide) (by decide)).1

/-- C2 counterexample: a buffer with 11 continuation bytes (more than
the claimed 10-byte maximum) decodes without any failure — the parse
consumes all 12 bytes and returns normally, instead of failing with a
FramingError. -/
theorem C2_overlong_varint_succeeds :
    parse_varints_from_hex (List.replicate 11 0x80 ++ [0x01]) =
      (2 ^ 77, 12, List.replicate 11 0x80 ++ [0x01]) := by decide

/-- C2 amended: the varint decoder imposes no maximum on the number of
bytes read: a buffer whose leading bytes contain more than 10
continuation bytes before the terminator still decodes normally,
consuming every continuation byte plus the terminator. -/
theorem C2_varint_no_maximum (conts : List Nat) (t : Nat) (rest : List Nat)
    (hc : ∀ b ∈ conts, b &&& 0x80 ≠ 0) (ht : t &&& 0x80 = 0)
    (hlong : 10 < conts.length) :
    (parse_varints_from_hex (conts ++ t :: rest)).2.1 = conts.length + 1 ∧
    10 < (parse_varints_from_hex (conts ++ t :: rest)).2.1 := by
  rw [parse_varints_spec conts t rest hc ht]
  refine ⟨rfl, ?_⟩
  show 10 < conts.length + 1
  omega

/-- Witness for C2 amended at 11 continuation bytes. -/
theorem C2_varint_no_maximum_witness :
    (parse_varints_from_hex (List.replicate 11 0x80 ++ 0x01 :: [])).2.1 =
      (List.replicate 11 0x80 : List Nat).length + 1 ∧
    10 < (parse_varints_from_hex (List.replicate 11 0x80 ++ 0x01 :: [])).2.1 :=
  C2_varint_no_maximum (List.replicate 11 0x80) 0x01 []
    (by decide) (by decide) (by decide)

/-- C1 (code bug): publishing into the full bounded decoder queue via
`packet_handler` drops the item and retains the bound's worth of items,
but prints zero `queue full` warnings and lets `queue.Full` escape the
handler instead of returning normally: `put_nowait` raises
`queue.Full` while the handler catches only the unrelated class
`asyncio.QueueFull`. -/
theorem C1_full_queue_divergence :
    (packet_handler (fun _ => false) qState2 qFull1 pktShort
        ["10.0.0.1"] (-1)).decoderQ.items.length = 1
    ∧ (packet_handler (fun _ => false) qState2 qFull1 pktShort
        ["10.0.0.1"] (-1)).warnings = 0
    ∧ (packet_handler (fun _ => false) qState2 qFull1 pktShort
        ["10.0.0.1"] (-1)).uncaught = some .queueFull := by decide

/-- C10: the decoder's input queue is written only when
`filter_payload_len = -1`; in that case the enqueued item (if the
bounded put succeeds) is flagged OTHER and the state-machine queue is
untouched, and for every other `filter_payload_len` the decoder queue
is untouched. -/
theorem C10_queue_routing (is_client : String → Bool)
    (stateQ decoderQ : PyQueue Message) (pkt : Packet)
    (servers : List String) (flt : Int) :
    (flt ≠ -1 →
      (packet_handler is_client stateQ decoderQ pkt servers flt).decoderQ = decoderQ)
    ∧ (flt = -1 →
      (packet_handler is_client stateQ decoderQ pkt servers flt).stateQ = stateQ
      ∧ ((packet_handler is_client stateQ decoderQ pkt servers flt).decoderQ.items
            = decoderQ.items
         ∨ ∃ m, (packet_handler is_client stateQ decoderQ pkt servers flt).decoderQ.items
            = decoderQ.items ++ [m] ∧ m.flag = .OTHER)) := by
  constructor
  · intro hne
    simp only [packet_handler, tryPutCatchAsyncioFull, PyQueue.putNowait, hne,
      if_false]
    repeat' split
    all_goals rfl
  · intro he
    subst he
    simp only [packet_handler, tryPutCatchAsyncioFull, PyQueue.putNowait,
      eq_self_iff_true, if_true]
    repeat' split
    all_goals try exact ⟨rfl, Or.inl rfl⟩
    all_goals
      rename_i heq
      split at heq
      · simp at heq
      · cases heq
        exact ⟨rfl, Or.inr ⟨_, rfl, rfl⟩⟩

/-- Witness for C10 at `flt = 5` (first conjunct) on concrete queues. -/
theorem C10_queue_routing_witness :
    (packet_handler (fun _ => false) qState2 qFull1 pktShort
        ["10.0.0.1"] 5).decoderQ = qFull1 :=
  (C10_queue_routing (fun _ => false) qState2 qFull1 pktShort
      ["10.0.0.1"] 5).1 (by decide)

/-- C8: for every environment and type short-name, the resolver loop
`import_proto` terminates within two iterations — in success or in an
error that propagates — invoking the compile collaborator at most once;
and once it has succeeded, a repeated request for the same name is
served from the module cache with no compile at all. -/
theorem C8_resolver_compile_once (env : PyEnv) (name : String) :
    (∃ r, import_proto 2 env name = some r ∧ r.2 ≤ 1)
    ∧ ∀ env' k, import_proto 2 env name = some (.ok env', k) →
        import_proto 2 env' name = some (.ok env', 0) := by
  have key : ∃ out k, import_proto 2 env name = some (out, k) ∧ k ≤ 1 ∧
      ∀ env2, out = .ok env2 →
        env2.modules.contains (name ++ "_pb2") = true := by
    show ∃ out k, import_proto (1 + 1) env name = some (out, k) ∧ _
    unfold import_proto
    cases h1 : importMod env name with
    | ok env1 =>
      exact ⟨.ok env1, 0, rfl, by omega,
        fun e he => by cases he; exact importMod_ok_mem h1⟩
    | error stem =>
      obtain ⟨hstem, hmods, harts⟩ := importMod_error_eq h1
      subst hstem
      dsimp only
      cases h2 : regexExtract stem with
      | none =>
        exact ⟨_, 0, rfl, by omega, fun e he => Except.noConfusion he⟩
      | some pf =>
        have hpf : pf = stem := regexExtract_eq h2
        subst hpf
        dsimp only
        cases h3 : compile_proto env pf with
        | error e =>
          exact ⟨.error e, 1, rfl, by omega, fun e' he => Except.noConfusion he⟩
        | ok env1 =>
          dsimp only
          have henv1 := compile_proto_ok h3
          have himp : importMod env1 pf =
              .ok { env1 with modules := (pf ++ "_pb2") :: env1.modules } := by
            unfold importMod
            have hm1 : env1.modules.contains (pf ++ "_pb2") = false := by
              rw [henv1]
              exact hmods
            have ha1 : env1.artifacts.contains pf = true := by
              rw [henv1]
              simp
            rw [hm1, ha1]
            rfl
          have h4 : import_proto 1 env1 pf =
              some (.ok { env1 with modules := (pf ++ "_pb2") :: env1.modules }, 0) := by
            show import_proto (0 + 1) env1 pf = _
            unfold import_proto
            rw [himp]
          rw [h4]
          exact ⟨_, 1, rfl, by omega, fun e' he => by cases he; simp⟩
  obtain ⟨out, k, hout, hk, hmem⟩ := key
  refine ⟨⟨(out, k), hout, hk⟩, ?_⟩
  intro env' k' h
  rw [hout] at h
  simp only [Option.some.injEq, Prod.mk.injEq] at h
  exact import_proto_cached (hmem env' h.1)

/-- Witness for C8: a fresh environment and the name `abc` — the first
resolution compiles once, the second is a pure cache hit. -/
theorem C8_resolver_compile_once_witness :
    import_proto 2 envAbc "abc" = some (.ok envAbc, 0) :=
  (C8_resolver_compile_once envEmpty "abc").2 envAbc 1 rfl

/-- C3 counterexample: on the payload `[1, 2, 3, 4, 5]`, which does not
contain the marker `[9, 9]`, the decoder does not reject the segment:
it hands the degenerate slice `payload[-3:] = [3, 4, 5]` (derived from
`m = -1`) to the envelope parser, and even publishes a record when that
parse succeeds with an allowlisted type. -/
theorem C3_marker_absent_parse_attempted :
    (decodeStep collabFoo envFoo [9, 9] ["Foo"] [] false msgPlain).1.anyParseArg =
      some [3, 4, 5]
    ∧ (decodeStep collabFoo envFoo [9, 9] ["Foo"] [] false msgPlain).1.published =
      some recPlain := by decide

/-- C3 amended: when the marker is absent the unwrapper substitutes
`m = -1` and deterministically attempts the envelope parse on
`payload[m - 2:] = payload[-3:]`, the last three payload bytes (the
whole payload when it is shorter) — a parse attempt at a degenerate
position, not a rejection of the segment. -/
theorem C3_marker_absent_parses_last_three (collab : Collab) (env : PyEnv)
    (magic : List Nat) (pf bl : List String) (vb : Bool) (msg : Message)
    (hm : firstOccur magic msg.pkt.payload = none)
    (hlen : ¬ (parse_varints_from_hex msg.pkt.payload).1
        + (parse_varints_from_hex msg.pkt.payload).2.1 > msg.pkt.payload.length) :
    (decodeStep collab env magic pf bl vb msg).1.anyParseArg =
      some (msg.pkt.payload.drop (msg.pkt.payload.length - 3)) := by
  rw [decodeStep_anyParseArg collab env magic pf bl vb msg hlen]
  have hmi : magicIndex magic msg.pkt.payload = -1 := by
    unfold magicIndex
    rw [hm]
  rw [hmi]
  unfold pySliceFrom
  rw [if_pos (by omega)]
  show some (msg.pkt.payload.drop ((msg.pkt.payload.length : Int) + (-1 - 2)).toNat) = _
  have : ((msg.pkt.payload.length : Int) + (-1 - 2)).toNat = msg.pkt.payload.length - 3 := by
    omega
  rw [this]

/-- Witness for C3 amended on `msgPlain` with marker `[9, 9]`. -/
theorem C3_marker_absent_parses_last_three_witness :
    (decodeStep collabErr envEmpty [9, 9] ["Foo"] [] false msgPlain).1.anyParseArg =
      some (msgPlain.pkt.payload.drop (msgPlain.pkt.payload.length - 3)) :=
  C3_marker_absent_parses_last_three collabErr envEmpty [9, 9] ["Foo"] [] false
    msgPlain (by decide) (by decide)

/-- C4: whenever the declared length (varint value plus bytes the
varint consumed) exceeds the available payload bytes, the decoder loop
records the framing `ValueError` at the loop boundary, attempts no
envelope parse, publishes no record downstream, and leaves the process
state unchanged (the loop continues with the next item). -/
theorem C4_framing_error_no_publish (collab : Collab) (env : PyEnv)
    (magic : List Nat) (pf bl : List String) (vb : Bool) (msg : Message)
    (h : (parse_varints_from_hex msg.pkt.payload).1
        + (parse_varints_from_hex msg.pkt.payload).2.1 > msg.pkt.payload.length) :
    (decodeStep collab env magic pf bl vb msg).1.published = none
    ∧ (decodeStep collab env magic pf bl vb msg).1.anyParseArg = none
    ∧ (decodeStep collab env magic pf bl vb msg).1.errorMsg =
        some ("Packet size is " ++ toString msg.pkt.payload.length ++ " but "
          ++ toString ((parse_varints_from_hex msg.pkt.payload).1
            + (parse_varints_from_hex msg.pkt.payload).2.1) ++ " was expected")
    ∧ (decodeStep collab env magic pf bl vb msg).2 = env := by
  simp only [decodeStep]
  rw [if_pos h]
  exact ⟨rfl, rfl, rfl, rfl⟩

/-- Witness for C4 on the 1-byte payload `[5]` (declared length 6). -/
theorem C4_framing_error_no_publish_witness :
    (decodeStep collabErr envEmpty [9, 9] ["Foo"] [] false msgShort).1.published = none
    ∧ (decodeStep collabErr envEmpty [9, 9] ["Foo"] [] false msgShort).1.anyParseArg = none
    ∧ (decodeStep collabErr envEmpty [9, 9] ["Foo"] [] false msgShort).1.errorMsg =
        some ("Packet size is " ++ toString msgShort.pkt.payload.length ++ " but "
          ++ toString ((parse_varints_from_hex msgShort.pkt.payload).1
            + (parse_varints_from_hex msgShort.pkt.payload).2.1) ++ " was expected")
    ∧ (decodeStep collabErr envEmpty [9, 9] ["Foo"] [] false msgShort).2 = envEmpty :=
  C4_framing_error_no_publish collabErr envEmpty [9, 9] ["Foo"] [] false msgShort
    (by decide)

/-- C5: with the allowlist equal to the single empty string, the
decoder forwards no record, whatever the collaborators report as the
type identifier — an explicit never-forward configuration. -/
theorem C5_empty_allowlist_never_forwards (collab : Collab) (env : PyEnv)
    (magic : List Nat) (bl : List String) (vb : Bool) (msg : Message) :
    (decodeStep collab env magic [""] bl vb msg).1.published = none := by
  simp only [decodeStep]
  split
  · rfl
  · cases collab.parseAny
        (pySliceFrom msg.pkt.payload (magicIndex magic msg.pkt.payload - 2)) with
    | error e => rfl
    | ok a => rfl

/-- C6: two decoder runs differing only in the blocklist agree on the
published record, the recorded error, the envelope-parse argument and
the final process state — the blocklist can affect only the verbose
per-type log line, never the forwarding outcome. -/
theorem C6_blocklist_never_affects_forwarding (collab : Collab) (env : PyEnv)
    (magic : List Nat) (pf bl1 bl2 : List String) (vb : Bool) (msg : Message) :
    (decodeStep collab env magic pf bl1 vb msg).1.published =
      (decodeStep collab env magic pf bl2 vb msg).1.published
    ∧ (decodeStep collab env magic pf bl1 vb msg).1.errorMsg =
      (decodeStep collab env magic pf bl2 vb msg).1.errorMsg
    ∧ (decodeStep collab env magic pf bl1 vb msg).1.anyParseArg =
      (decodeStep collab env magic pf bl2 vb msg).1.anyParseArg
    ∧ (decodeStep collab env magic pf bl1 vb msg).2 =
      (decodeStep collab env magic pf bl2 vb msg).2 := by
  simp only [decodeStep]
  by_cases h : (parse_varints_from_hex msg.pkt.payload).1
      + (parse_varints_from_hex msg.pkt.payload).2.1 > msg.pkt.payload.length
  · rw [if_pos h, if_pos h]
    exact ⟨rfl, rfl, rfl, rfl⟩
  · rw [if_neg h, if_neg h]
    cases collab.parseAny
        (pySliceFrom msg.pkt.payload (magicIndex magic msg.pkt.payload - 2)) with
    | error e => exact ⟨rfl, rfl, rfl, rfl⟩
    | ok a =>
      dsimp only
      cases (if pf = [""] then none else pf.find? fun p => strSub p a.type_url) with
      | none => exact ⟨rfl, rfl, rfl, rfl⟩
      | some p =>
        dsimp only
        cases import_proto 2 env p with
        | none => exact ⟨rfl, rfl, rfl, rfl⟩
        | some r =>
          obtain ⟨out, k⟩ := r
          cases out with
          | error e => exact ⟨rfl, rfl, rfl, rfl⟩
          | ok env' =>
            dsimp only
            cases collab.renderProto p a.value with
            | error e => exact ⟨rfl, rfl, rfl, rfl⟩
            | ok json => exact ⟨rfl, rfl, rfl, rfl⟩

/-- C9: every record the decoder publishes downstream carries
`size` equal to the parsed varint value plus the bytes the varint
occupied, and `nb_packet` fixed at 1. -/
theorem C9_published_record_size (collab : Collab) (env : PyEnv)
    (magic : List Nat) (pf bl : List String) (vb : Bool) (msg : Message)
    (r : TCP_Message)
    (h : (decodeStep collab env magic pf bl vb msg).1.published = some r) :
    r.size = (parse_varints_from_hex msg.pkt.payload).1
      + (parse_varints_from_hex msg.pkt.payload).2.1
    ∧ r.nb_packet = 1 := by
  simp only [decodeStep] at h
  split at h
  · exact absurd h (by simp)
  · split at h
    · exact absurd h (by simp)
    · split at h
      · exact absurd h (by simp)
      · split at h
        · exact absurd h (by simp)
        · exact absurd h (by simp)
        · split at h
          · exact absurd h (by simp)
          · simp only [Option.some.injEq] at h
            subst h
            exact ⟨rfl, rfl⟩

/-- Witness for C9 on the concrete publishing run for `msgPlain`. -/
theorem C9_published_record_size_witness :
    recPlain.size = (parse_varints_from_hex msgPlain.pkt.payload).1
      + (parse_varints_from_hex msgPlain.pkt.payload).2.1
    ∧ recPlain.nb_packet = 1 :=
  C9_published_record_size collabFoo envFoo [9, 9] ["Foo"] [] false msgPlain
    recPlain (by decide)

end GameTCPSniffer
